import Mathlib

/-!
Verification of the cflip configuration/settings core against its
natural-language specification.

Shallow embedding conventions used throughout this file:
* Go `map[string]T` values are modelled as association lists
  `List (String × T)` with unique keys; `lookupKV` / `insertKV` /
  `eraseKV` mirror map read, write and delete.
* Timestamps produced by `time.Now()` are passed in explicitly as
  parameters (the Go code only ever formats or compares them).
* Byte strings are modelled as `String`; prefix/suffix tests translate
  Go `strings.HasPrefix` / `filepath.Ext` on the character data.
* Serialisation round-trips (TOML encode/decode of a struct) are
  modelled as the identity on the parsed structure; the claims under
  study do not depend on the concrete wire format.
-/

namespace Cflip

/-- Read a key from an association-list map (Go map read `m[k]`). -/
def lookupKV {α : Type} : List (String × α) → String → Option α
  | [], _ => none
  | (k', v) :: rest, k => if k' = k then some v else lookupKV rest k

/-- Write a key into an association-list map (Go map write `m[k] = v`). -/
def insertKV {α : Type} : List (String × α) → String → α → List (String × α)
  | [], k, v => [(k, v)]
  | (k', v') :: rest, k, v =>
      if k' = k then (k, v) :: rest else (k', v') :: insertKV rest k v

/-- Delete a key from an association-list map (Go `delete(m, k)`). -/
def eraseKV {α : Type} : List (String × α) → String → List (String × α)
  | [], _ => []
  | (k', v') :: rest, k =>
      if k' = k then eraseKV rest k else (k', v') :: eraseKV rest k

/-- Keys of an association-list map. -/
def keysOf {α : Type} (m : List (String × α)) : List String := m.map Prod.fst

/-- A map has well-formed (pairwise distinct) keys. -/
def NodupKeys {α : Type} (m : List (String × α)) : Prop :=
  (keysOf m).Nodup

/-- Character-level prefix test, modelling Go `strings.HasPrefix` on
ASCII data. -/
def hasPrefixStr (s pre : String) : Bool := pre.data.isPrefixOf s.data

/-- Character-level slice `s[:n]`, modelling Go byte slicing on ASCII data. -/
def takeChars (s : String) (n : Nat) : String := ⟨s.data.take n⟩

/-- Character count, modelling Go `len(s)` on ASCII data. -/
def lengthChars (s : String) : Nat := s.data.length

namespace TomlV2

/-- Source: `internal/config/cflip_config.go`, `ModelConfig`. -/
structure ModelConfig where
  id : String
  name : String
  provider : String
  category : String
  description : String := ""
  maxTokens : Nat := 0
  contextWindow : Nat := 0
  capabilities : List String := []
  customParams : List (String × String) := []
deriving Repr, DecidableEq

/-- Source: `internal/config/cflip_config.go`, `ProviderAuthConfig`.
Auth method strings: `"api_key"` or `"subscription"`. -/
structure ProviderAuthConfig where
  method : String
  apiKey : String := ""
  baseURL : String := ""
  authHeader : String := ""
  timeoutSeconds : Nat := 0
  rateLimitRPM : Nat := 0
  rateLimitTPM : Nat := 0
  requiresSetup : Bool := false
  setupInstructions : String := ""
deriving Repr, DecidableEq

/-- Source: `internal/config/cflip_config.go`, `ProviderInfo`. -/
structure ProviderInfo where
  name : String
  displayName : String := ""
  description : String := ""
  website : String := ""
  auth : ProviderAuthConfig
  models : List String := []
  envVars : List (String × String) := []
  tags : List String := []
deriving Repr, DecidableEq

/-- Source: `internal/config/cflip_config.go`, `ActiveConfig`. -/
structure ActiveConfig where
  provider : String
  modelMapping : List (String × String) := []
  envVars : List (String × String) := []
  lastSwitched : Nat := 0
deriving Repr, DecidableEq

/-- Source: `internal/config/cflip_config.go`, `SettingsConfig`. -/
structure SettingsConfig where
  backupDirectory : String := ""
  maxBackups : Nat := 0
  autoBackup : Bool := false
  secureStorage : Bool := false
  defaultTimeout : Nat := 0
  autoValidate : Bool := false
  logLevel : String := ""
  telemetry : Bool := false
deriving Repr, DecidableEq

/-- Source: `internal/config/cflip_config.go`, `UserPreferences`. -/
structure UserPreferences where
  defaultModelCategories : List String := []
  favoriteProviders : List String := []
  autoSwitchInterval : Nat := 0
  promptOnSwitch : Bool := false
  showModelInfo : Bool := false
  colorOutput : Bool := false
deriving Repr, DecidableEq

/-- Source: `internal/config/cflip_config.go`, `CFLIPConfig`.
Timestamps are abstract `Nat` instants. -/
structure CFLIPConfig where
  version : String
  createdAt : Nat
  updatedAt : Nat
  models : List (String × ModelConfig)
  providers : List (String × ProviderInfo)
  active : ActiveConfig
  settings : SettingsConfig
  userPreferences : UserPreferences
deriving Repr, DecidableEq

/-- Error taxonomy of the config layer (spec §7); the Go code returns
`fmt.Errorf` values whose role the spec classifies as `NotFoundError`
or `ValidationError`. -/
inductive CfgError where
  | notFound (msg : String)
  | validation (msg : String)
deriving Repr, DecidableEq

/-- Source: `cflip_config.go`, `SetActiveProvider`: requires the provider
to exist; sets it active; folds the provider's model list into the
EXISTING mapping (`c.Active.ModelMapping[model.Category] = modelID`). -/
def setActiveProvider (now : Nat) (providerName : String) (c : CFLIPConfig) :
    Except CfgError CFLIPConfig :=
  match lookupKV c.providers providerName with
  | none => .error (.notFound ("provider " ++ providerName ++ " not found"))
  | some provider =>
      let active := { c.active with provider := providerName, lastSwitched := now }
      let mapping := provider.models.foldl (fun m modelID =>
        match lookupKV c.models modelID with
        | some model => insertKV m model.category modelID
        | none => m) active.modelMapping
      .ok { c with active := { active with modelMapping := mapping } }

/-- Source: `cflip_config.go`, `SetActiveModel`. -/
def setActiveModel (now : Nat) (category modelID : String) (c : CFLIPConfig) :
    Except CfgError CFLIPConfig :=
  match lookupKV c.models modelID with
  | none => .error (.notFound ("model " ++ modelID ++ " not found"))
  | some model =>
      if model.category ≠ category then
        .error (.validation ("model " ++ modelID ++ " is not in category " ++ category ++
          " (it is in " ++ model.category ++ ")"))
      else
        .ok { c with
          active := { c.active with
            modelMapping := insertKV c.active.modelMapping category modelID },
          updatedAt := now }

/-- Source: `cflip_config.go`, `validateProvider`. -/
def validateProvider (c : CFLIPConfig) (p : ProviderInfo) : Except CfgError Unit :=
  if p.name = "" then .error (.validation "provider name cannot be empty")
  else if p.auth.method = "api_key" ∧ p.auth.baseURL = "" then
    .error (.validation "base URL is required for API key authentication")
  else if p.auth.method = "api_key" ∧ p.auth.authHeader = "" then
    .error (.validation "auth header is required for API key authentication")
  else
    match p.models.find? (fun mid => (lookupKV c.models mid).isNone) with
    | some mid => .error (.validation ("references non-existent model " ++ mid))
    | none => .ok ()

/-- Source: `cflip_config.go`, `validateModel`. -/
def validateModel (c : CFLIPConfig) (m : ModelConfig) : Except CfgError Unit :=
  if m.id = "" then .error (.validation "model ID cannot be empty")
  else if m.name = "" then .error (.validation "model name cannot be empty")
  else if m.provider = "" then .error (.validation "model provider cannot be empty")
  else if m.category = "" then .error (.validation "model category cannot be empty")
  else if (lookupKV c.providers m.provider).isNone then
    .error (.validation ("provider " ++ m.provider ++ " does not exist"))
  else .ok ()

/-- First failing check in a sequence (Go fail-fast loops). -/
def firstError {β : Type} (xs : List β) (f : β → Except CfgError Unit) :
    Except CfgError Unit :=
  match xs with
  | [] => .ok ()
  | x :: rest =>
      match f x with
      | .error e => .error e
      | .ok _ => firstError rest f

/-- Prefix an error message with Go-style `%w` wrapping context. -/
def wrapErr (pre : String) : Except CfgError Unit → Except CfgError Unit
  | .error (.validation m) => .error (.validation (pre ++ m))
  | .error (.notFound m) => .error (.notFound (pre ++ m))
  | .ok _ => .ok ()

/-- Source: `cflip_config.go`, `Validate`: active provider, providers,
models, then the active mapping, failing fast. Go map iteration order is
unspecified; the model iterates in list order, one of the behaviours the
code may exhibit. -/
def validate (c : CFLIPConfig) : Except CfgError Unit :=
  match lookupKV c.providers c.active.provider with
  | none =>
      .error (.notFound ("invalid active provider: active provider " ++
        c.active.provider ++ " not found"))
  | some _ =>
      match firstError c.providers
          (fun e => wrapErr ("provider " ++ e.1 ++ ": ") (validateProvider c e.2)) with
      | .error e => .error e
      | .ok _ =>
          match firstError c.models
              (fun e => wrapErr ("model " ++ e.1 ++ ": ") (validateModel c e.2)) with
          | .error e => .error e
          | .ok _ =>
              firstError c.active.modelMapping (fun e =>
                if (lookupKV c.models e.2).isNone then
                  .error (.validation ("active model mapping for " ++ e.1 ++
                    ": model " ++ e.2 ++ " not found"))
                else .ok ())

/-- Source: `toml_manager.go`, `obfuscateAPIKey`; the SHA3 digest is an
opaque parameter `hash` (external library code). -/
def obfuscateAPIKey (hash : String → String) (key : String) : String :=
  if lengthChars key > 8 then
    "encrypted:" ++ hash key ++ ":" ++ takeChars key 8
  else
    "encrypted:" ++ hash key ++ ":"

/-- Source: `toml_manager.go`, `deobfuscateAPIKey`: anything carrying the
`encrypted:` prefix is mapped to the empty string. -/
def deobfuscateAPIKey (obfuscated : String) : String :=
  if hasPrefixStr obfuscated "encrypted:" then "" else obfuscated

/-- Source: `toml_manager.go`, `encryptAPIKeys`: rewrite the key of every
api-key provider that has one. -/
def encryptAPIKeys (hash : String → String) (c : CFLIPConfig) : CFLIPConfig :=
  { c with providers := c.providers.map (fun e =>
      if e.2.auth.method = "api_key" ∧ e.2.auth.apiKey ≠ "" then
        (e.1, { e.2 with auth := { e.2.auth with
          apiKey := obfuscateAPIKey hash e.2.auth.apiKey } })
      else e) }

/-- Source: `toml_manager.go`, `decryptAPIKeys`. -/
def decryptAPIKeys (c : CFLIPConfig) : CFLIPConfig :=
  { c with providers := c.providers.map (fun e =>
      if e.2.auth.method = "api_key" ∧ e.2.auth.apiKey ≠ "" then
        (e.1, { e.2 with auth := { e.2.auth with
          apiKey := deobfuscateAPIKey e.2.auth.apiKey } })
      else e) }

/-- Source: `toml_manager.go`, `SaveConfig`, data level: validate, bump
`updatedAt`, obfuscate keys when secure storage is on. The returned value
is the persisted document (TOML encode/decode modelled as identity). -/
def saveConfigData (hash : String → String) (now : Nat) (c : CFLIPConfig) :
    Except CfgError CFLIPConfig :=
  match wrapErr "invalid configuration: " (validate c) with
  | .error e => .error e
  | .ok _ =>
      let c := { c with updatedAt := now }
      .ok (if c.settings.secureStorage then encryptAPIKeys hash c else c)

/-- Source: `toml_manager.go`, `LoadConfig`, data level, applied to a
parsed persisted document: deobfuscate keys when secure storage is on. -/
def loadConfigData (c : CFLIPConfig) : CFLIPConfig :=
  if c.settings.secureStorage then decryptAPIKeys c else c

/-- Source: `cflip_config.go`, `NewCFLIPConfig`: the fully-populated
default configuration (entries listed in source order). -/
def newCFLIPConfig (now : Nat) (homeDir : String) : CFLIPConfig :=
  { version := "1.0.0"
    createdAt := now
    updatedAt := now
    models :=
      [ ("claude-3-5-haiku-20241022",
          { id := "claude-3-5-haiku-20241022", name := "Claude 3.5 Haiku"
            provider := "anthropic", category := "haiku"
            description := "Fast and efficient model for quick tasks"
            maxTokens := 200000, contextWindow := 200000
            capabilities := ["text", "code", "analysis"] }),
        ("claude-3-5-sonnet-20241022",
          { id := "claude-3-5-sonnet-20241022", name := "Claude 3.5 Sonnet"
            provider := "anthropic", category := "sonnet"
            description := "Balanced model for most tasks"
            maxTokens := 200000, contextWindow := 200000
            capabilities := ["text", "code", "analysis", "reasoning"] }),
        ("claude-3-opus-20240229",
          { id := "claude-3-opus-20240229", name := "Claude 3 Opus"
            provider := "anthropic", category := "opus"
            description := "Most capable model for complex tasks"
            maxTokens := 4096, contextWindow := 200000
            capabilities := ["text", "code", "analysis", "reasoning", "creative"] }),
        ("glm-4.5-air",
          { id := "glm-4.5-air", name := "GLM-4.5 Air"
            provider := "glm", category := "haiku"
            description := "Lightweight model for fast responses"
            maxTokens := 8192, contextWindow := 128000
            capabilities := ["text", "code"] }),
        ("glm-4.6",
          { id := "glm-4.6", name := "GLM-4.6"
            provider := "glm", category := "sonnet"
            description := "Advanced model for complex tasks"
            maxTokens := 8192, contextWindow := 128000
            capabilities := ["text", "code", "reasoning"] }),
        ("claude-code-default",
          { id := "claude-code-default", name := "Claude Code Default"
            provider := "claude-code", category := "sonnet"
            description := "Default model from Claude Code subscription"
            capabilities := ["text", "code", "analysis", "reasoning"] }) ]
    providers :=
      [ ("anthropic",
          { name := "anthropic", displayName := "Anthropic"
            description := "Official Anthropic Claude API"
            website := "https://anthropic.com"
            auth :=
              { method := "api_key", baseURL := "https://api.anthropic.com"
                authHeader := "x-api-key", timeoutSeconds := 300
                rateLimitRPM := 1000, rateLimitTPM := 100000 }
            models := ["claude-3-5-haiku-20241022", "claude-3-5-sonnet-20241022",
                       "claude-3-opus-20240229"]
            envVars := [("API_TIMEOUT_MS", "3000000")]
            tags := ["official", "api", "paid"] }),
        ("claude-code",
          { name := "claude-code", displayName := "Claude Code"
            description := "Claude Code CLI with subscription authentication"
            website := "https://docs.anthropic.com/claude/docs/claude-code"
            auth :=
              { method := "subscription", timeoutSeconds := 300
                requiresSetup := true
                setupInstructions :=
                  "Run claude /login to authenticate with your Claude subscription" }
            models := ["claude-code-default"]
            tags := ["official", "subscription", "cli"] }),
        ("glm",
          { name := "glm", displayName := "GLM by z.ai"
            description := "GLM models compatible with Claude API"
            website := "https://z.ai"
            auth :=
              { method := "api_key", baseURL := "https://api.z.ai/api/anthropic"
                authHeader := "authorization", timeoutSeconds := 300
                rateLimitRPM := 500, rateLimitTPM := 50000 }
            models := ["glm-4.5-air", "glm-4.6"]
            envVars := [("API_TIMEOUT_MS", "3000000")]
            tags := ["third-party", "api", "paid"] }) ]
    active :=
      { provider := "anthropic"
        modelMapping :=
          [ ("haiku", "claude-3-5-haiku-20241022"),
            ("sonnet", "claude-3-5-sonnet-20241022"),
            ("opus", "claude-3-opus-20240229") ]
        lastSwitched := now }
    settings :=
      { backupDirectory := homeDir ++ "/.cflip/backups"
        maxBackups := 10, autoBackup := true, secureStorage := true
        defaultTimeout := 300, autoValidate := true
        logLevel := "info", telemetry := false }
    userPreferences :=
      { defaultModelCategories := ["sonnet", "haiku"]
        favoriteProviders := ["anthropic", "claude-code"]
        promptOnSwitch := true, showModelInfo := true, colorOutput := true } }

/-- The last model id in `ids` (list order) that exists in `c.models` with
category `cat`, if any: the pointwise value produced by the merge fold of
`SetActiveProvider` (later list entries overwrite earlier ones). -/
def lastCategoryModel (c : CFLIPConfig) (ids : List String) (cat : String) : Option String :=
  ids.foldl (fun acc modelID =>
    match lookupKV c.models modelID with
    | some model => if model.category = cat then some modelID else acc
    | none => acc) none

/-- Modelled from the spec words of claim C2 (for comparison only): the
category mapping re-derived from scratch from the provider model list,
one model per category, the FIRST listed model of each category winning,
every previous entry discarded. -/
def specDerivedMappingFirstWins (c : CFLIPConfig) (ids : List String) :
    List (String × String) :=
  ids.foldl (fun m modelID =>
    match lookupKV c.models modelID with
    | some model =>
        if (lookupKV m model.category).isSome then m
        else insertKV m model.category modelID
    | none => m) []

def c2prov : ProviderInfo :=
  { name := "p"
    auth := { method := "api_key", baseURL := "https://p.example",
              authHeader := "x-api-key" }
    models := ["mA", "mB"] }

/-- A valid configuration whose provider `p` offers two sonnet-category
models and whose previous active mapping carries an `opus` entry. -/
def c2cfg : CFLIPConfig :=
  { version := "1.0.0", createdAt := 0, updatedAt := 0
    models :=
      [ ("mA", { id := "mA", name := "Model A", provider := "p", category := "sonnet" }),
        ("mB", { id := "mB", name := "Model B", provider := "p", category := "sonnet" }),
        ("mOld", { id := "mOld", name := "Model Old", provider := "p", category := "opus" }) ]
    providers := [("p", c2prov)]
    active := { provider := "p", modelMapping := [("opus", "mOld")] }
    settings := {}
    userPreferences := {} }

def glmAirModel : ModelConfig :=
  { id := "glm-4.5-air", name := "GLM-4.5 Air"
    provider := "glm", category := "haiku"
    description := "Lightweight model for fast responses"
    maxTokens := 8192, contextWindow := 128000
    capabilities := ["text", "code"] }

/-- A valid configuration with secure storage enabled (the default) and a
stored GLM API-key secret: the default configuration with the glm secret
set, as `SetAPIKey` would leave it. -/
def c1cfg : CFLIPConfig :=
  let base := newCFLIPConfig 0 "/home/user"
  { base with providers := base.providers.map (fun e =>
      if e.1 = "glm" then
        (e.1, { e.2 with auth := { e.2.auth with apiKey := "sk-test-12345678" } })
      else e) }

end TomlV2

/-- Last-written value for a key in a sequence of map writes (the value a
Go `for ... m[k] = v` loop leaves behind). -/
def lastKV {α : Type} (l : List (String × α)) (k : String) : Option α :=
  l.foldl (fun acc e => if e.1 = k then some e.2 else acc) none

/-- Character-level suffix test, modelling Go `strings.HasSuffix` /
`filepath.Ext(f) == ".json"` on ASCII data. -/
def hasSuffixStr (s suf : String) : Bool := suf.data.isSuffixOf s.data

namespace Cli

/-- An arbitrary JSON value as decoded into Go `interface\x7b\x7d` by
`encoding/json`; numbers are modelled as integers (the claims under study
never compute with numeric values). -/
inductive JVal where
  | str (s : String)
  | num (n : Int)
  | bool (b : Bool)
  | null
  | arr (elems : List JVal)
  | obj (fields : List (String × JVal))

/-- Insertion sort of rendered map entries by key, modelling `fmt`
printing Go maps in sorted key order. -/
def insertSortedKV (e : String × String) :
    List (String × String) → List (String × String)
  | [] => [e]
  | f :: rest => if e.1 ≤ f.1 then e :: f :: rest else f :: insertSortedKV e rest

def sortByKey : List (String × String) → List (String × String)
  | [] => []
  | e :: rest => insertSortedKV e (sortByKey rest)

mutual

/-- Go `fmt.Sprintf("%v", x)` on decoded JSON values: strings print raw,
maps print as `map[k1:v1 k2:v2]` with keys sorted, slices as `[a b c]`,
nil as `<nil>`. -/
def render : JVal → String
  | .str s => s
  | .num n => toString n
  | .bool b => if b then "true" else "false"
  | .null => "<nil>"
  | .arr elems => "[" ++ String.intercalate " " (renderElems elems) ++ "]"
  | .obj fields =>
      "map[" ++ String.intercalate " "
        ((sortByKey (renderFields fields)).map (fun e => e.1 ++ ":" ++ e.2)) ++ "]"

def renderElems : List JVal → List String
  | [] => []
  | v :: rest => render v :: renderElems rest

def renderFields : List (String × JVal) → List (String × String)
  | [] => []
  | (k, v) :: rest => (k, render v) :: renderFields rest

end

/-- Source: `part_000` (snapshot/settings file of package `cli`),
`ClaudeSettings`: schema pointer, env object, and all other top-level
fields preserved verbatim. -/
structure ClaudeSettings where
  schema : String := ""
  env : List (String × JVal) := []
  additionalFields : List (String × JVal) := []

/-- Source: `part_000`, `LoadSettings`, applied to a parsed JSON object. -/
def loadSettingsDoc (raw : List (String × JVal)) : ClaudeSettings :=
  { env :=
      match lookupKV raw "env" with
      | some (.obj e) => e
      | _ => []
    schema :=
      match lookupKV raw "$schema" with
      | some (.str s) => s
      | _ => ""
    additionalFields := raw.filter (fun e => e.1 != "$schema" && e.1 != "env") }

/-- Source: `part_000`, `SaveSettings`: the full top-level JSON object the
function marshals (schema if non-empty, env if non-empty, then every
additional field). -/
def saveSettingsMap (s : ClaudeSettings) : List (String × JVal) :=
  let m : List (String × JVal) := []
  let m := if s.schema ≠ "" then insertKV m "$schema" (.str s.schema) else m
  let m := if s.env.length > 0 then insertKV m "env" (.obj s.env) else m
  s.additionalFields.foldl (fun acc e => insertKV acc e.1 e.2) m

/-- Source: `internal/config/config.go`, `ProviderConfig`. -/
structure ProviderConfig where
  token : String := ""
  baseURL : String := ""
  modelMap : List (String × String) := []
deriving Repr, DecidableEq

/-- Source: `internal/config/config.go`, `Config`. -/
structure Config where
  provider : String
  providers : List (String × ProviderConfig)
deriving Repr, DecidableEq

/-- Source: `internal/cli/switch.go`, `generateClaudeSettings`, the env
keys cleared before regeneration. -/
def keysToDelete : List String :=
  ["ANTHROPIC_AUTH_TOKEN", "ANTHROPIC_BASE_URL",
   "ANTHROPIC_DEFAULT_HAIKU_MODEL", "ANTHROPIC_DEFAULT_SONNET_MODEL",
   "ANTHROPIC_DEFAULT_OPUS_MODEL"]

/-- Source: `internal/cli/switch.go`, `generateClaudeSettings`, the pure
document rewrite (the snapshot side effects touch other files and are
modelled separately): clear the reserved keys, then configure env for the
active provider. A missing provider entry yields Go's zero value. -/
def generateClaudeSettingsDoc (cfg : Config) (settings : ClaudeSettings) :
    ClaudeSettings :=
  let env := keysToDelete.foldl (fun e k => eraseKV e k) settings.env
  let env :=
    if cfg.provider = "anthropic" then
      let provider := (lookupKV cfg.providers "anthropic").getD {}
      if provider.token ≠ "" then
        insertKV env "ANTHROPIC_AUTH_TOKEN" (.str provider.token)
      else env
    else
      let provider := (lookupKV cfg.providers cfg.provider).getD {}
      let env := insertKV env "ANTHROPIC_AUTH_TOKEN" (.str provider.token)
      let env := insertKV env "ANTHROPIC_BASE_URL" (.str provider.baseURL)
      if provider.modelMap.length > 0 then
        let env :=
          match lookupKV provider.modelMap "haiku" with
          | some m => insertKV env "ANTHROPIC_DEFAULT_HAIKU_MODEL" (.str m)
          | none => env
        let env :=
          match lookupKV provider.modelMap "sonnet" with
          | some m => insertKV env "ANTHROPIC_DEFAULT_SONNET_MODEL" (.str m)
          | none => env
        match lookupKV provider.modelMap "opus" with
        | some m => insertKV env "ANTHROPIC_DEFAULT_OPUS_MODEL" (.str m)
        | none => env
      else env
  { settings with env := env }

/-- Source: `part_000`, `compareValues`: `fmt.Sprintf("%v")` equality. -/
def compareValues (a b : JVal) : Bool := render a == render b

/-- One direction of the map comparison loop in `settingsEqual`. -/
def envMatches (a b : List (String × JVal)) : Bool :=
  a.all (fun e =>
    match lookupKV b e.1 with
    | some bv => compareValues e.2 bv
    | none => false)

/-- Source: `part_000`, `settingsEqual`. -/
def settingsEqual (a b : ClaudeSettings) : Bool :=
  a.schema == b.schema &&
  (a.env.length == b.env.length && envMatches a.env b.env) &&
  (a.additionalFields.length == b.additionalFields.length &&
    envMatches a.additionalFields b.additionalFields)

/-- A snapshot directory: file names with the stored (parsed) documents,
in name order as `os.ReadDir` returns them; JSON marshal/unmarshal of a
settings document round-trips and is modelled as the identity. -/
abbrev SnapshotDir := List (String × ClaudeSettings)

/-- Source: `part_000`, `CreateSnapshot` file naming. -/
def snapshotName (provider ts : String) : String :=
  "snapshot-" ++ provider ++ "-" ++ ts ++ ".json"

/-- Go `strings.Split(s, "-")` on ASCII character data. -/
def splitOnDash : List Char → List (List Char)
  | [] => [[]]
  | c :: rest =>
      let r := splitOnDash rest
      if c = '-' then [] :: r
      else
        match r with
        | [] => [[c]]
        | h :: t => (c :: h) :: t

/-- Go `strings.Join(parts, "-")` on ASCII character data. -/
def joinDash : List (List Char) → List Char
  | [] => []
  | [x] => x
  | x :: rest => x ++ '-' :: joinDash rest

/-- Go byte-wise string comparison `a < b` on ASCII character data. -/
def charListLt : List Char → List Char → Bool
  | [], [] => false
  | [], _ :: _ => true
  | _ :: _, [] => false
  | a :: as, b :: bs => if a < b then true else if b < a then false else charListLt as bs

def strLt (a b : String) : Bool := charListLt a.data b.data

/-- Source: `part_000`, `extractTimestampFromFilename`. -/
def extractTimestampFromFilename (filename : String) : String :=
  let parts := splitOnDash filename.data
  if parts.length ≥ 3 then
    let timestamp : String := ⟨joinDash (parts.drop 2)⟩
    if hasSuffixStr timestamp ".json" then
      ⟨timestamp.data.take (timestamp.data.length - 5)⟩
    else timestamp
  else ""

/-- Source: `part_000`, `isIdenticalToLatestSnapshot`, filter step: the
snapshots carrying this provider tag. -/
def tagSnapshots (snaps : SnapshotDir) (provider : String) : SnapshotDir :=
  snaps.filter (fun e => hasPrefixStr e.1 ("snapshot-" ++ provider ++ "-"))

/-- Source: `part_000`, `isIdenticalToLatestSnapshot`, sort step: sorting
by extracted timestamp descending and taking the head selects an element
with maximal extracted timestamp (ties broken arbitrarily by the
unstable sort; the model keeps the later list entry). -/
def latestSnapshot (snaps : SnapshotDir) : Option (String × ClaudeSettings) :=
  match snaps with
  | [] => none
  | e :: rest =>
      some (rest.foldl (fun best f =>
        if strLt (extractTimestampFromFilename best.1) (extractTimestampFromFilename f.1)
        then f else best) e)

/-- Source: `part_000`, `isIdenticalToLatestSnapshot`. -/
def isIdenticalToLatestSnapshot (snaps : SnapshotDir) (provider : String)
    (current : ClaudeSettings) : Bool :=
  match latestSnapshot (tagSnapshots snaps provider) with
  | none => false
  | some e => settingsEqual current e.2

/-- Source: `part_000`, `CreateSnapshot` (deduplicating generation): skip
when the latest snapshot for the tag is structurally equal, otherwise
write `snapshot-provider-ts.json` with the current document. -/
def createSnapshot (doc : ClaudeSettings) (provider ts : String)
    (snaps : SnapshotDir) : SnapshotDir :=
  if isIdenticalToLatestSnapshot snaps provider doc then snaps
  else snaps ++ [(snapshotName provider ts, doc)]

/-- Source: `part_000`, `ListSnapshots`: keep `.json` files, in directory
order. -/
def listSnapshots (entries : List String) : List String :=
  entries.filter (fun f => hasSuffixStr f ".json")

/-- Source: `part_000`, `CleanupOldSnapshots` tag extraction:
`parts[9:]` cut at the first dash, when that dash exists at a positive
index. -/
def snapshotTag (name : String) : Option String :=
  if lengthChars name > lengthChars "snapshot-" then
    let provider := name.data.drop 9
    match provider.findIdx? (fun ch => ch = '-') with
    | some idx => if idx > 0 then some ⟨provider.take idx⟩ else none
    | none => none
  else none

/-- Source: `part_000`, `CleanupOldSnapshots` grouping loop: group the
listed snapshots by extracted tag, preserving encounter order. -/
def groupByTag (snaps : List String) : List (String × List String) :=
  snaps.foldl (fun groups name =>
    match snapshotTag name with
    | some tag =>
        match lookupKV groups tag with
        | some files => insertKV groups tag (files ++ [name])
        | none => groups ++ [(tag, [name])]
    | none => groups) []

/-- Source: `part_000`, `CleanupOldSnapshots` deletion loop: in each group
whose size exceeds `keepCount`, the files from index `keepCount` on (in
directory = name-ascending order) are removed. Returns the removed file
names. -/
def cleanupDeleted (entries : List String) (keepCount : Nat) : List String :=
  (groupByTag (listSnapshots entries)).foldl (fun acc g =>
    if g.2.length ≤ keepCount then acc else acc ++ g.2.drop keepCount) []

def c4cfg : Config :=
  { provider := "glm"
    providers := [("glm",
      { token := "sk-glm", baseURL := "https://api.z.ai/api/anthropic"
        modelMap := [("haiku", "glm-4.5-air"), ("sonnet", "glm-4.6")] })] }

def c4doc : ClaudeSettings :=
  { schema := "https://json.schemastore.org/claude-code-settings.json"
    env := [("FOO", .str "bar"), ("ANTHROPIC_BASE_URL", .str "https://old.example")]
    additionalFields := [("theme", .str "dark")] }

def c5doc : ClaudeSettings :=
  { env := [("ANTHROPIC_AUTH_TOKEN", .str "sk-1")]
    additionalFields := [("theme", .str "dark")] }

end Cli

namespace CfgTypes

/-- Source: `internal/config/types.go`, `ClaudeSettings` (package
`config`): a bare string-to-string env object. -/
structure ClaudeSettings where
  env : List (String × String)
deriving Repr, DecidableEq

/-- Source: `internal/config/types.go`, `Provider`. -/
structure Provider where
  name : String := ""
  displayName : String := ""
  baseURL : String := ""
  models : List (String × String) := []
  authHeader : String := ""
  envVars : List (String × String) := []
deriving Repr, DecidableEq

/-- Source: `internal/config/types.go`, `Provider.Merge`, everything
before the timeout default: build the env map from scratch; auth token,
base URL, the three default-model keys, then the provider's extra env
vars. (A nil models map and an empty one behave identically for the
lookups.) -/
def mergeBase (p : Provider) (apiKey : String) : List (String × String) :=
  let env : List (String × String) := []
  let env := insertKV env "ANTHROPIC_AUTH_TOKEN" apiKey
  let env := insertKV env "ANTHROPIC_BASE_URL" p.baseURL
  let env :=
    match lookupKV p.models "haiku" with
    | some haiku => insertKV env "ANTHROPIC_DEFAULT_HAIKU_MODEL" haiku
    | none => env
  let env :=
    match lookupKV p.models "sonnet" with
    | some sonnet => insertKV env "ANTHROPIC_DEFAULT_SONNET_MODEL" sonnet
    | none => env
  let env :=
    match lookupKV p.models "opus" with
    | some opus => insertKV env "ANTHROPIC_DEFAULT_OPUS_MODEL" opus
    | none => env
  p.envVars.foldl (fun acc e => insertKV acc e.1 e.2) env

/-- Source: `internal/config/types.go`, `Provider.Merge`: the base env
map, then `API_TIMEOUT_MS = "3000000"` only when that key is still
absent. -/
def merge (p : Provider) (apiKey : String) : ClaudeSettings :=
  let env := mergeBase p apiKey
  let env :=
    if (lookupKV env "API_TIMEOUT_MS").isNone then
      insertKV env "API_TIMEOUT_MS" "3000000"
    else env
  { env := env }

/-- Source: `internal/config/types.go`, `BackupInfo` (byte size omitted:
no claim under study reads it). -/
structure BackupInfo where
  id : String
  timestamp : String
  provider : String
  path : String
deriving Repr, DecidableEq

/-- Source: `internal/config/manager.go`, `GetCurrentProvider`, applied
to loaded settings. -/
def getCurrentProvider (s : ClaudeSettings) : String :=
  match lookupKV s.env "ANTHROPIC_BASE_URL" with
  | some baseURL =>
      if baseURL = "https://api.z.ai/api/anthropic" then "glm"
      else if baseURL = "" ∨ baseURL = "https://api.anthropic.com" then "anthropic"
      else "custom"
  | none => "anthropic"

/-- Source: `internal/config/manager.go`, `ListBackups`: non-directory
entries named `backup-*`, in directory (name-ascending) order; the id
drops the 5-character `.json` suffix, the timestamp drops the 7-character
`backup-` prefix. -/
def listBackups (backupDirName : String) (dir : List (String × ClaudeSettings)) :
    List BackupInfo :=
  (dir.filter (fun e => hasPrefixStr e.1 "backup-")).map (fun e =>
    let backupID := takeChars e.1 (lengthChars e.1 - 5)
    { id := backupID
      timestamp := ⟨backupID.data.drop 7⟩
      provider := "unknown"
      path := backupDirName ++ "/" ++ e.1 })

/-- Source: `internal/config/manager.go`, `cleanOldBackups`: when the
listed backups exceed the maximum, the leading excess entries (directory
order) are removed. -/
def cleanOldBackups (maxBackups : Nat) (dir : List (String × ClaudeSettings)) :
    List (String × ClaudeSettings) :=
  let names := (dir.filter (fun e => hasPrefixStr e.1 "backup-")).map Prod.fst
  if names.length ≤ maxBackups then dir
  else
    let toRemove := names.take (names.length - maxBackups)
    dir.filter (fun e => !toRemove.contains e.1)

/-- The files the config `Manager` touches: the destination settings
document (absent or present) and the backup directory in name order. -/
structure ManagerState where
  settingsFile : Option ClaudeSettings
  backupDir : List (String × ClaudeSettings)
deriving Repr, DecidableEq

/-- Source: `internal/config/manager.go`, `CreateBackup`: fails before
any copy when the settings file does not exist; otherwise copies it to
`backup-<ts>.json`, infers the provider, and prunes excess backups. -/
def createBackup (backupDirName : String) (maxBackups : Nat) (ts : String)
    (st : ManagerState) : ManagerState × Except String BackupInfo :=
  let backupID := "backup-" ++ ts
  match st.settingsFile with
  | none => (st, .error "settings file does not exist, cannot create backup")
  | some doc =>
      let newDir := insertKV st.backupDir (backupID ++ ".json") doc
      let info : BackupInfo :=
        { id := backupID
          timestamp := ts
          provider := getCurrentProvider doc
          path := backupDirName ++ "/" ++ backupID ++ ".json" }
      ({ st with backupDir := cleanOldBackups maxBackups newDir }, .ok info)

def isLeapYear (y : Nat) : Bool := y % 4 = 0 ∧ (y % 100 ≠ 0 ∨ y % 400 = 0)

def daysInMonth (y mo : Nat) : Nat :=
  if mo = 2 then (if isLeapYear y then 29 else 28)
  else if mo = 4 ∨ mo = 6 ∨ mo = 9 ∨ mo = 11 then 30
  else 31

/-- Order-isomorphic encoding of a calendar instant (mixed radix on the
date-time fields): `t₁` is chronologically before `t₂` iff the encodings
compare with `<`. -/
def encodeTs (y mo d h mi s : Nat) : Nat :=
  ((((y * 13 + mo) * 32 + d) * 24 + h) * 60 + mi) * 60 + s

/-- Source: Go `time.Parse("20060102-150405", s)` as used by
`backup.go`: exactly 15 ASCII characters `YYYYMMDD-HHMMSS`, all digits
except the dash, with calendar-valid month, day (month length and leap
years), hour, minute and second; the result is the instant encoding. -/
def parseTimestamp (s : String) : Option Nat :=
  let cs := s.data
  if cs.length = 15
      ∧ (cs.take 8 ++ cs.drop 9).all Char.isDigit = true
      ∧ cs.getD 8 ' ' = '-' then
    let dv := fun (i : Nat) => (cs.getD i '0').toNat - 48
    let y := ((dv 0 * 10 + dv 1) * 10 + dv 2) * 10 + dv 3
    let mo := dv 4 * 10 + dv 5
    let d := dv 6 * 10 + dv 7
    let h := dv 9 * 10 + dv 10
    let mi := dv 11 * 10 + dv 12
    let sec := dv 13 * 10 + dv 14
    if 1 ≤ mo ∧ mo ≤ 12 ∧ 1 ≤ d ∧ d ≤ daysInMonth y mo
        ∧ h ≤ 23 ∧ mi ≤ 59 ∧ sec ≤ 59 then
      some (encodeTs y mo d h mi sec)
    else none
  else none

/-- Source: `internal/config/backup.go`, `PruneBackups` loop body: a
backup is deleted exactly when its timestamp parses and lies strictly
before the cutoff (`cutoff = now - olderThan` is the only use the code
makes of `now` and `olderThan`, so it is the model's parameter); parse
failures `continue`. -/
def pruneDeletes (cutoff : Nat) (b : BackupInfo) : Bool :=
  match parseTimestamp b.timestamp with
  | some t => decide (t < cutoff)
  | none => false

/-- Source: `internal/config/backup.go`, `PruneBackups`: the deleted
backups and the surviving ones. -/
def pruneBackups (backups : List BackupInfo) (cutoff : Nat) :
    List BackupInfo × List BackupInfo :=
  (backups.filter (pruneDeletes cutoff),
   backups.filter (fun b => !pruneDeletes cutoff b))

/-- Modelled from the spec words of claim C8 (for comparison only): the
timeout value the claim prescribes, `auth.timeoutSeconds` converted to
milliseconds with a 300-second default when unset. -/
def specTimeoutMs (timeoutSeconds : Nat) : String :=
  toString ((if timeoutSeconds = 0 then 300 else timeoutSeconds) * 1000)

def c8prov : Provider :=
  { name := "glm", displayName := "GLM"
    baseURL := "https://api.z.ai/api/anthropic"
    models := [("haiku", "glm-4.5-air"), ("sonnet", "glm-4.6"), ("opus", "glm-4.6")]
    authHeader := "authorization" }

end CfgTypes

namespace WritePath

/-- Go `filepath.Dir` (without path cleaning, which no claim needs). -/
def dirOf (path : String) : String :=
  match path.data.reverse.dropWhile (fun c => c ≠ '/') with
  | [] => "."
  | _ :: tl => if tl = [] then "/" else ⟨tl.reverse⟩

/-- The file-system operations the save paths perform, in order. -/
inductive FsOp where
  | mkdirAll (dir : String)
  | writeFile (path : String) (content : String)
  | rename (src dst : String)
  | removeFile (path : String)
deriving Repr, DecidableEq

/-- Source: `toml_manager.go`, `SaveConfig`, success path: write the
whole document to `<config>.tmp`, then rename it over the destination. -/
def saveConfigOps (configPath content : String) : List FsOp :=
  [ .mkdirAll (dirOf configPath),
    .writeFile (configPath ++ ".tmp") content,
    .rename (configPath ++ ".tmp") configPath ]

/-- Source: `part_000`, `SaveSettings` (the snapshot/switch settings
writer): mkdir then a DIRECT `os.WriteFile` of the destination — no
temporary file and no rename. -/
def saveSettingsOps (settingsPath content : String) : List FsOp :=
  [ .mkdirAll (dirOf settingsPath),
    .writeFile settingsPath content ]

/-- A file system: path to content. -/
def FS : Type := String → Option String

def applyOp (fs : FS) : FsOp → FS
  | .mkdirAll _ => fs
  | .writeFile p c => fun q => if q = p then some c else fs q
  | .rename src dst => fun q =>
      if q = dst then fs src else if q = src then none else fs q
  | .removeFile p => fun q => if q = p then none else fs q

def applyOps (ops : List FsOp) (fs : FS) : FS := ops.foldl applyOp fs

/-- The trace writes the destination file in place. -/
def WritesDestDirectly (dest : String) (ops : List FsOp) : Prop :=
  ∃ c, FsOp.writeFile dest c ∈ ops

/-- The trace installs the destination by renaming some other file over
it. -/
def RenamesOntoDest (dest : String) (ops : List FsOp) : Prop :=
  ∃ tmp, FsOp.rename tmp dest ∈ ops

/-- The write discipline claim C9 asserts of every write path: the
destination is never written directly, only renamed into place. -/
def AtomicWrite (dest : String) (ops : List FsOp) : Prop :=
  ¬ WritesDestDirectly dest ops ∧ RenamesOntoDest dest ops

end WritePath

/-! ## Theorems -/

theorem lookupKV_insertKV {α : Type} (m : List (String × α)) (k k' : String) (v : α) :
    lookupKV (insertKV m k v) k' = if k = k' then some v else lookupKV m k' := by
  induction m with
  | nil => simp [insertKV, lookupKV]
  | cons hd tl ih =>
      obtain ⟨k₀, v₀⟩ := hd
      by_cases h₀ : k₀ = k
      · subst h₀
        by_cases h₁ : k₀ = k'
        · subst h₁; simp [insertKV, lookupKV]
        · simp [insertKV, lookupKV, h₁]
      · by_cases h₁ : k₀ = k'
        · subst h₁
          simp [insertKV, lookupKV, h₀, Ne.symm h₀]
        · simp [insertKV, lookupKV, h₀, h₁, ih]

theorem lookupKV_insertKV_self {α : Type} (m : List (String × α)) (k : String) (v : α) :
    lookupKV (insertKV m k v) k = some v := by
  simp [lookupKV_insertKV]

theorem lookupKV_insertKV_ne {α : Type} (m : List (String × α)) (k k' : String) (v : α)
    (h : k ≠ k') : lookupKV (insertKV m k v) k' = lookupKV m k' := by
  simp [lookupKV_insertKV, h]

theorem lookupKV_eraseKV {α : Type} (m : List (String × α)) (k k' : String) :
    lookupKV (eraseKV m k) k' = if k = k' then none else lookupKV m k' := by
  induction m with
  | nil => simp [eraseKV, lookupKV]
  | cons hd tl ih =>
      obtain ⟨k₀, v₀⟩ := hd
      by_cases h₀ : k₀ = k
      · subst h₀
        by_cases h₁ : k₀ = k'
        · subst h₁; simpa [eraseKV] using ih
        · simp [eraseKV, lookupKV, h₁, ih]
      · by_cases h₁ : k₀ = k'
        · subst h₁
          simp [eraseKV, lookupKV, h₀, Ne.symm h₀, ih]
        · simp [eraseKV, lookupKV, h₀, h₁, ih]

theorem lookupKV_eraseKV_ne {α : Type} (m : List (String × α)) (k k' : String)
    (h : k ≠ k') : lookupKV (eraseKV m k) k' = lookupKV m k' := by
  simp [lookupKV_eraseKV, h]

theorem lookupKV_eq_some_of_mem {α : Type} {m : List (String × α)} {k : String} {v : α}
    (hnd : NodupKeys m) (hmem : (k, v) ∈ m) : lookupKV m k = some v := by
  induction m with
  | nil => cases hmem
  | cons hd tl ih =>
      obtain ⟨k₀, v₀⟩ := hd
      rcases List.mem_cons.mp hmem with heq | htl
      · cases heq; simp [lookupKV]
      · have hk : k₀ ≠ k := by
          intro h; subst h
          have : k₀ ∈ keysOf tl := List.mem_map_of_mem Prod.fst htl
          exact (List.nodup_cons.mp hnd).1 this
        have hnd' : NodupKeys tl := (List.nodup_cons.mp hnd).2
        simp [lookupKV, hk, ih hnd' htl]

theorem hasPrefixStr_append (pre rest : String) :
    hasPrefixStr (pre ++ rest) pre = true := by
  simp [hasPrefixStr, String.data_append, List.isPrefixOf_iff_prefix]

theorem append_ne_empty_left (pre rest : String) (h : pre ≠ "") :
    (pre ++ rest) ≠ "" := by
  intro hcontra
  apply h
  have hdata : pre.data ++ rest.data = [] := by
    have := congrArg String.data hcontra
    simpa [String.data_append] using this
  have : pre.data = [] := (List.append_eq_nil.mp hdata).1
  cases pre with
  | mk d => simpa using congrArg String.mk this

namespace TomlV2

theorem lookup_mapping_foldl (c : CFLIPConfig) (ids : List String)
    (m₀ : List (String × String)) (cat : String) :
    lookupKV (ids.foldl (fun m modelID =>
        match lookupKV c.models modelID with
        | some model => insertKV m model.category modelID
        | none => m) m₀) cat
    = ids.foldl (fun acc modelID =>
        match lookupKV c.models modelID with
        | some model => if model.category = cat then some modelID else acc
        | none => acc) (lookupKV m₀ cat) := by
  induction ids generalizing m₀ with
  | nil => rfl
  | cons mid rest ih =>
      simp only [List.foldl_cons]
      rw [ih]
      cases hm : lookupKV c.models mid with
      | none => rfl
      | some model =>
          by_cases h : model.category = cat
          · subst h
            simp [lookupKV_insertKV]
          · simp [lookupKV_insertKV, h]

theorem foldl_option_seed (c : CFLIPConfig) (ids : List String) (cat : String)
    (a : Option String) :
    ids.foldl (fun acc modelID =>
      match lookupKV c.models modelID with
      | some model => if model.category = cat then some modelID else acc
      | none => acc) a
    = match lastCategoryModel c ids cat with
      | some modelID => some modelID
      | none => a := by
  induction ids generalizing a with
  | nil => rfl
  | cons mid rest ih =>
      show List.foldl _ _ rest = _
      rw [ih]
      have hmid : lastCategoryModel c (mid :: rest) cat
          = match lastCategoryModel c rest cat with
            | some x => some x
            | none =>
                match lookupKV c.models mid with
                | some model => if model.category = cat then some mid else none
                | none => none := by
        show List.foldl _ _ rest = _
        rw [ih]
      rw [hmid]
      cases hlast : lastCategoryModel c rest cat with
      | some x => rfl
      | none =>
          cases hm : lookupKV c.models mid with
          | none => simp [hm]
          | some model =>
              by_cases h : model.category = cat
              · simp [hm, h]
              · simp [hm, h]

/-- C2 (amended): `setActiveProvider(p)` succeeds when the provider
exists, sets it active, and for each category MERGES into the previous
mapping: the entry becomes the LAST listed model of that category offered
by the provider (and existing in the catalog), while categories the
provider does not cover keep their previous entries. -/
theorem setActiveProvider_merges_last_wins (c : CFLIPConfig) (now : Nat)
    (name : String) (p : ProviderInfo)
    (h : lookupKV c.providers name = some p) :
    ∃ c', setActiveProvider now name c = .ok c' ∧
      c'.active.provider = name ∧
      c'.active.lastSwitched = now ∧
      c'.models = c.models ∧ c'.providers = c.providers ∧
      ∀ cat, lookupKV c'.active.modelMapping cat =
        match lastCategoryModel c p.models cat with
        | some modelID => some modelID
        | none => lookupKV c.active.modelMapping cat := by
  have hstep : setActiveProvider now name c = .ok
      { c with active :=
          { provider := name
            modelMapping := p.models.foldl (fun m modelID =>
              match lookupKV c.models modelID with
              | some model => insertKV m model.category modelID
              | none => m) c.active.modelMapping
            envVars := c.active.envVars
            lastSwitched := now } } := by
    unfold setActiveProvider
    rw [h]
  refine ⟨_, hstep, rfl, rfl, rfl, rfl, ?_⟩
  intro cat
  show lookupKV (p.models.foldl _ _) cat = _
  rw [lookup_mapping_foldl, foldl_option_seed]

/-- C2 counterexample: switching `c2cfg` to provider `p` keeps the stale
`opus → mOld` entry and maps `sonnet` to the LAST listed sonnet model
`mB`, while the mapping the claim prescribes has no `opus` entry and maps
`sonnet` to the FIRST listed model `mA`. -/
theorem setActiveProvider_claim_counterexample :
    (setActiveProvider 7 "p" c2cfg).map (fun c' =>
        (lookupKV c'.active.modelMapping "sonnet",
         lookupKV c'.active.modelMapping "opus"))
      = .ok (some "mB", some "mOld")
    ∧ lookupKV (specDerivedMappingFirstWins c2cfg c2prov.models) "sonnet" = some "mA"
    ∧ lookupKV (specDerivedMappingFirstWins c2cfg c2prov.models) "opus" = none :=
  ⟨rfl, rfl, rfl⟩

/-- Witness for `setActiveProvider_merges_last_wins` at `c2cfg`. -/
theorem setActiveProvider_merges_last_wins_witness :
    ∃ c', setActiveProvider 7 "p" c2cfg = .ok c' ∧
      c'.active.provider = "p" ∧
      c'.active.lastSwitched = 7 ∧
      c'.models = c2cfg.models ∧ c'.providers = c2cfg.providers ∧
      ∀ cat, lookupKV c'.active.modelMapping cat =
        match lastCategoryModel c2cfg c2prov.models cat with
        | some modelID => some modelID
        | none => lookupKV c2cfg.active.modelMapping cat :=
  setActiveProvider_merges_last_wins c2cfg 7 "p" c2prov rfl

/-- C6: `setActiveModel(category, modelId)` where the model exists but its
category differs fails with a `ValidationError` and leaves every entry of
the active category-to-model mapping unchanged. -/
theorem setActiveModel_category_mismatch (c : CFLIPConfig) (now : Nat)
    (category modelID : String) (model : ModelConfig)
    (hfind : lookupKV c.models modelID = some model)
    (hcat : model.category ≠ category) :
    setActiveModel now category modelID c =
      .error (.validation ("model " ++ modelID ++ " is not in category " ++
        category ++ " (it is in " ++ model.category ++ ")")) ∧
    ∀ cat, lookupKV (((setActiveModel now category modelID c).toOption.getD c).active.modelMapping) cat
      = lookupKV c.active.modelMapping cat := by
  refine ⟨by simp [setActiveModel, hfind, hcat], ?_⟩
  intro cat
  simp [setActiveModel, hfind, hcat, Except.toOption]

/-- Witness for `setActiveModel_category_mismatch`: spec Scenario C on the
default configuration (`glm-4.5-air` has category `haiku`, requested as
`sonnet`). -/
theorem setActiveModel_category_mismatch_witness :
    setActiveModel 5 "sonnet" "glm-4.5-air" (newCFLIPConfig 0 "/home/user") =
      .error (.validation
        "model glm-4.5-air is not in category sonnet (it is in haiku)") ∧
    ∀ cat, lookupKV (((setActiveModel 5 "sonnet" "glm-4.5-air" (newCFLIPConfig 0 "/home/user")).toOption.getD
        (newCFLIPConfig 0 "/home/user")).active.modelMapping) cat
      = lookupKV (newCFLIPConfig 0 "/home/user").active.modelMapping cat :=
  setActiveModel_category_mismatch (newCFLIPConfig 0 "/home/user") 5 "sonnet"
    "glm-4.5-air" glmAirModel (by rfl) (by decide)

theorem deobfuscate_obfuscate (hash : String → String) (key : String) :
    deobfuscateAPIKey (obfuscateAPIKey hash key) = "" := by
  unfold obfuscateAPIKey deobfuscateAPIKey
  by_cases h : lengthChars key > 8
  · rw [if_pos h]
    have hassoc : "encrypted:" ++ hash key ++ ":" ++ takeChars key 8
        = "encrypted:" ++ (hash key ++ (":" ++ takeChars key 8)) := by
      rw [String.append_assoc, String.append_assoc]
    rw [hassoc, hasPrefixStr_append]
    simp
  · rw [if_neg h]
    have hassoc : "encrypted:" ++ hash key ++ ":"
        = "encrypted:" ++ (hash key ++ ":") := by
      rw [String.append_assoc]
    rw [hassoc, hasPrefixStr_append]
    simp

theorem obfuscate_ne_empty (hash : String → String) (key : String) :
    obfuscateAPIKey hash key ≠ "" := by
  unfold obfuscateAPIKey
  by_cases h : lengthChars key > 8
  · rw [if_pos h, String.append_assoc, String.append_assoc]
    exact append_ne_empty_left _ _ (by decide)
  · rw [if_neg h, String.append_assoc]
    exact append_ne_empty_left _ _ (by decide)

/-- C1 (code bug): under the default `secure_storage = true`, the
save/load round trip does NOT recover the stored API-key secret: saving
obfuscates it into an `encrypted:`-prefixed digest and loading maps every
such value to the empty string, for every possible digest function. -/
theorem save_load_loses_api_key (hash : String → String) (now : Nat) :
    (lookupKV c1cfg.providers "glm").map (fun p => p.auth.apiKey)
        = some "sk-test-12345678"
    ∧ (saveConfigData hash now c1cfg).map (fun persisted =>
        (lookupKV (loadConfigData persisted).providers "glm").map
          (fun p => p.auth.apiKey))
      = .ok (some "") := by
  constructor
  · rfl
  · have hv : validate c1cfg = .ok () := by rfl
    simp only [saveConfigData, hv, wrapErr]
    simp only [c1cfg, newCFLIPConfig, loadConfigData, encryptAPIKeys, decryptAPIKeys,
      List.map_cons, List.map_nil, Except.map]
    simp [lookupKV, deobfuscate_obfuscate, obfuscate_ne_empty]

end TomlV2

theorem lastKV_foldl_seed {α : Type} (l : List (String × α)) (k : String) (a : Option α) :
    l.foldl (fun acc e => if e.1 = k then some e.2 else acc) a
      = match lastKV l k with | some v => some v | none => a := by
  induction l generalizing a with
  | nil => rfl
  | cons e tl ih =>
      show List.foldl _ _ tl = _
      rw [ih]
      have hmid : lastKV (e :: tl) k
          = match lastKV tl k with
            | some v => some v
            | none => if e.1 = k then some e.2 else none := by
        show List.foldl _ _ tl = _
        rw [ih]
      rw [hmid]
      cases lastKV tl k with
      | some v => rfl
      | none => by_cases h : e.1 = k <;> simp [h]

theorem lookupKV_foldl_insertKV {α : Type} (l : List (String × α))
    (m : List (String × α)) (k : String) :
    lookupKV (l.foldl (fun acc e => insertKV acc e.1 e.2) m) k
      = match lastKV l k with | some v => some v | none => lookupKV m k := by
  induction l generalizing m with
  | nil => rfl
  | cons e tl ih =>
      show lookupKV (List.foldl _ (insertKV m e.1 e.2) tl) k = _
      rw [ih]
      have hmid : lastKV (e :: tl) k
          = match lastKV tl k with
            | some v => some v
            | none => if e.1 = k then some e.2 else none := by
        show List.foldl _ _ tl = _
        rw [lastKV_foldl_seed]
      rw [hmid]
      cases lastKV tl k with
      | some v => rfl
      | none =>
          by_cases h : e.1 = k
          · subst h; simp [lookupKV_insertKV]
          · simp [lookupKV_insertKV, h]

theorem lookupKV_eq_none_of_not_mem {α : Type} (m : List (String × α)) (k : String)
    (h : k ∉ keysOf m) : lookupKV m k = none := by
  induction m with
  | nil => rfl
  | cons f tl ih =>
      have hks : keysOf (f :: tl) = f.1 :: keysOf tl := rfl
      rw [hks] at h
      have hf : f.1 ≠ k := fun hc => h (hc ▸ List.mem_cons_self _ _)
      have htl : k ∉ keysOf tl := fun hc => h (List.mem_cons_of_mem _ hc)
      simp [lookupKV, hf, ih htl]

theorem lastKV_eq_lookupKV {α : Type} (l : List (String × α)) (k : String)
    (h : NodupKeys l) : lastKV l k = lookupKV l k := by
  induction l with
  | nil => rfl
  | cons e tl ih =>
      have hnd : NodupKeys tl := (List.nodup_cons.mp h).2
      have hkey : e.1 ∉ keysOf tl := (List.nodup_cons.mp h).1
      show List.foldl _ _ tl = _
      rw [lastKV_foldl_seed]
      by_cases hk : e.1 = k
      · subst hk
        have hnone : lastKV tl e.1 = none := by
          rw [ih hnd]
          exact lookupKV_eq_none_of_not_mem tl e.1 hkey
        simp [hnone, lookupKV]
      · rw [ih hnd]
        have hr : lookupKV (e :: tl) k = lookupKV tl k := by simp [lookupKV, hk]
        rw [hr]
        cases lookupKV tl k <;> simp [hk]

namespace Cli

theorem lookupKV_eraseFold (ks : List String) (e : List (String × JVal)) (k : String)
    (h : k ∉ ks) : lookupKV (ks.foldl (fun acc key => eraseKV acc key) e) k = lookupKV e k := by
  induction ks generalizing e with
  | nil => rfl
  | cons k₀ rest ih =>
      have h₀ : k₀ ≠ k := fun hc => h (hc ▸ List.mem_cons_self k₀ rest)
      have hrest : k ∉ rest := fun hc => h (List.mem_cons_of_mem k₀ hc)
      show lookupKV (List.foldl _ (eraseKV e k₀) rest) k = _
      rw [ih (eraseKV e k₀) hrest, lookupKV_eraseKV_ne _ _ _ h₀]

/-- C4: regenerating the destination settings document for a new provider
touches only the five reserved env keys: every env key outside the
reserved set keeps its value, the schema pointer and every other
top-level field are carried through unchanged (both in the in-memory
document and in the top-level JSON object `SaveSettings` writes). -/
theorem generate_preserves_unrelated (cfg : Config) (s : ClaudeSettings) :
    (∀ k, k ∉ keysToDelete →
       lookupKV (generateClaudeSettingsDoc cfg s).env k = lookupKV s.env k)
    ∧ (generateClaudeSettingsDoc cfg s).additionalFields = s.additionalFields
    ∧ (generateClaudeSettingsDoc cfg s).schema = s.schema
    ∧ (∀ k, k ≠ "$schema" → k ≠ "env" →
        lookupKV (saveSettingsMap (generateClaudeSettingsDoc cfg s)) k
          = lookupKV (saveSettingsMap s) k) := by
  refine ⟨?_, rfl, rfl, ?_⟩
  · intro k hk
    have hknotin : k ∉ keysToDelete := hk
    simp only [keysToDelete, List.mem_cons, List.not_mem_nil, or_false, not_or] at hk
    obtain ⟨h1, h2, h3, h4, h5⟩ := hk
    have hb : lookupKV (keysToDelete.foldl (fun acc key => eraseKV acc key) s.env) k
        = lookupKV s.env k := lookupKV_eraseFold keysToDelete s.env k hknotin
    have hins : ∀ (m : List (String × JVal)) (key : String) (v : JVal),
        key ∈ keysToDelete → lookupKV m k = lookupKV s.env k →
        lookupKV (insertKV m key v) k = lookupKV s.env k := by
      intro m key v hkmem hm
      rw [lookupKV_insertKV_ne m key k v (fun hc => hknotin (hc ▸ hkmem))]
      exact hm
    show lookupKV (generateClaudeSettingsDoc cfg s).env k = _
    simp only [generateClaudeSettingsDoc]
    by_cases hp : cfg.provider = "anthropic"
    · simp only [if_pos hp]
      by_cases ht : ((lookupKV cfg.providers "anthropic").getD
          { token := "", baseURL := "", modelMap := [] }).token ≠ ""
      · rw [if_pos ht]
        exact hins _ _ _ (by simp [keysToDelete]) hb
      · rw [if_neg ht]
        exact hb
    · simp only [if_neg hp]
      have e1 := hins _ "ANTHROPIC_AUTH_TOKEN"
        (JVal.str ((lookupKV cfg.providers cfg.provider).getD
          { token := "", baseURL := "", modelMap := [] }).token)
        (by simp [keysToDelete]) hb
      have e2 := hins _ "ANTHROPIC_BASE_URL"
        (JVal.str ((lookupKV cfg.providers cfg.provider).getD
          { token := "", baseURL := "", modelMap := [] }).baseURL)
        (by simp [keysToDelete]) e1
      by_cases hm : 0 < ((lookupKV cfg.providers cfg.provider).getD
          { token := "", baseURL := "", modelMap := [] }).modelMap.length
      · rw [if_pos hm]
        cases hha : lookupKV ((lookupKV cfg.providers cfg.provider).getD
            { token := "", baseURL := "", modelMap := [] }).modelMap "haiku" <;>
          cases hso : lookupKV ((lookupKV cfg.providers cfg.provider).getD
              { token := "", baseURL := "", modelMap := [] }).modelMap "sonnet" <;>
            cases hop : lookupKV ((lookupKV cfg.providers cfg.provider).getD
                { token := "", baseURL := "", modelMap := [] }).modelMap "opus" <;>
              simp only [hha, hso, hop] <;>
                repeat
                  first
                    | exact e2
                    | refine hins _ _ _ (by simp [keysToDelete]) ?_
      · rw [if_neg hm]
        exact e2
  · intro k hk1 hk2
    unfold saveSettingsMap
    rw [lookupKV_foldl_insertKV, lookupKV_foldl_insertKV]
    have hadd : (generateClaudeSettingsDoc cfg s).additionalFields = s.additionalFields := rfl
    rw [hadd]
    cases hl : lastKV s.additionalFields k with
    | some v => rfl
    | none =>
        have hsch : (generateClaudeSettingsDoc cfg s).schema = s.schema := rfl
        rw [hsch]
        repeat' split
        all_goals simp [lookupKV_insertKV, Ne.symm hk1, Ne.symm hk2, lookupKV]

/-- Witness for `generate_preserves_unrelated`: spec Scenario E, a
document with top-level `theme: dark` and an unrelated env key `FOO`. -/
theorem generate_preserves_unrelated_witness :
    lookupKV (generateClaudeSettingsDoc c4cfg c4doc).env "FOO"
        = lookupKV c4doc.env "FOO"
    ∧ (generateClaudeSettingsDoc c4cfg c4doc).additionalFields = c4doc.additionalFields
    ∧ lookupKV (saveSettingsMap (generateClaudeSettingsDoc c4cfg c4doc)) "theme"
        = lookupKV (saveSettingsMap c4doc) "theme" := by
  obtain ⟨henv, hadd, _, hmap⟩ := generate_preserves_unrelated c4cfg c4doc
  exact ⟨henv "FOO" (by decide), hadd, hmap "theme" (by decide) (by decide)⟩

theorem settingsEqual_self (s : ClaudeSettings) (h1 : NodupKeys s.env)
    (h2 : NodupKeys s.additionalFields) : settingsEqual s s = true := by
  have hmatch : ∀ (m : List (String × JVal)), NodupKeys m → envMatches m m = true := by
    intro m hm
    unfold envMatches
    rw [List.all_eq_true]
    intro e he
    have hlk : lookupKV m e.1 = some e.2 := lookupKV_eq_some_of_mem hm (by simpa using he)
    simp [hlk, compareValues]
  simp [settingsEqual, hmatch s.env h1, hmatch s.additionalFields h2]

theorem foldl_latest_dominated (l : List (String × ClaudeSettings))
    (e₀ b : String × ClaudeSettings)
    (hb : strLt (extractTimestampFromFilename b.1)
      (extractTimestampFromFilename e₀.1) = true)
    (hl : ∀ e ∈ l, strLt (extractTimestampFromFilename e.1)
      (extractTimestampFromFilename e₀.1) = true) :
    (l ++ [e₀]).foldl (fun best f =>
      if strLt (extractTimestampFromFilename best.1) (extractTimestampFromFilename f.1)
      then f else best) b = e₀ := by
  induction l generalizing b with
  | nil => simp [hb]
  | cons f l ih =>
      simp only [List.cons_append, List.foldl_cons]
      by_cases hf : strLt (extractTimestampFromFilename b.1)
          (extractTimestampFromFilename f.1) = true
      · rw [if_pos hf]
        exact ih f (hl f (List.mem_cons_self f l)) (fun e he => hl e (List.mem_cons_of_mem f he))
      · rw [if_neg hf]
        exact ih b hb (fun e he => hl e (List.mem_cons_of_mem f he))

theorem latestSnapshot_append_max (l : List (String × ClaudeSettings))
    (e₀ : String × ClaudeSettings)
    (h : ∀ e ∈ l, strLt (extractTimestampFromFilename e.1)
      (extractTimestampFromFilename e₀.1) = true) :
    latestSnapshot (l ++ [e₀]) = some e₀ := by
  cases l with
  | nil => rfl
  | cons e rest =>
      simp only [List.cons_append, latestSnapshot]
      congr 1
      exact foldl_latest_dominated rest e₀ e (h e (List.mem_cons_self e rest))
        (fun x hx => h x (List.mem_cons_of_mem e hx))

theorem hasPrefixStr_snapshotName (provider ts : String) :
    hasPrefixStr (snapshotName provider ts) ("snapshot-" ++ provider ++ "-") = true := by
  have h : snapshotName provider ts
      = ("snapshot-" ++ provider ++ "-") ++ (ts ++ ".json") := by
    simp [snapshotName, String.append_assoc]
  rw [h]
  exact hasPrefixStr_append _ _

/-- C5: calling `createSnapshot` twice in succession with the same
(unchanged, well-formed) document and the same provider tag writes at
most once: the second call finds the latest snapshot structurally equal
and leaves the directory untouched; and when the tag had no snapshots
yet, the pair of calls produces exactly one new snapshot file. The
freshness hypothesis states that the first call's timestamp is strictly
newer than every existing snapshot of the tag, as wall-clock naming
guarantees. -/
theorem createSnapshot_dedup (doc : ClaudeSettings) (provider ts₁ ts₂ : String)
    (snaps : SnapshotDir)
    (hnd1 : NodupKeys doc.env) (hnd2 : NodupKeys doc.additionalFields)
    (hfresh : ∀ e ∈ tagSnapshots snaps provider,
      strLt (extractTimestampFromFilename e.1)
        (extractTimestampFromFilename (snapshotName provider ts₁)) = true) :
    createSnapshot doc provider ts₂ (createSnapshot doc provider ts₁ snaps)
      = createSnapshot doc provider ts₁ snaps
    ∧ (tagSnapshots snaps provider = [] →
        (createSnapshot doc provider ts₁ snaps).length = snaps.length + 1) := by
  constructor
  · by_cases hid : isIdenticalToLatestSnapshot snaps provider doc = true
    · simp [createSnapshot, hid]
    · have hid' : isIdenticalToLatestSnapshot snaps provider doc = false := by
        simpa using hid
      have hs₁ : createSnapshot doc provider ts₁ snaps
          = snaps ++ [(snapshotName provider ts₁, doc)] := by
        simp [createSnapshot, hid']
      rw [hs₁]
      have htag : tagSnapshots (snaps ++ [(snapshotName provider ts₁, doc)]) provider
          = tagSnapshots snaps provider ++ [(snapshotName provider ts₁, doc)] := by
        simp [tagSnapshots, List.filter_append, hasPrefixStr_snapshotName]
      have hlat : latestSnapshot
          (tagSnapshots (snaps ++ [(snapshotName provider ts₁, doc)]) provider)
          = some (snapshotName provider ts₁, doc) := by
        rw [htag]
        exact latestSnapshot_append_max _ _ hfresh
      have hid2 : isIdenticalToLatestSnapshot
          (snaps ++ [(snapshotName provider ts₁, doc)]) provider doc = true := by
        simp [isIdenticalToLatestSnapshot, hlat, settingsEqual_self doc hnd1 hnd2]
      simp [createSnapshot, hid2]
  · intro hempty
    have hfalse : isIdenticalToLatestSnapshot snaps provider doc = false := by
      simp [isIdenticalToLatestSnapshot, hempty, latestSnapshot]
    simp [createSnapshot, hfalse]

/-- Witness for `createSnapshot_dedup`: two successive snapshot calls for
tag `glm` starting from an empty snapshot directory. -/
theorem createSnapshot_dedup_witness :
    createSnapshot c5doc "glm" "20250101-120001"
        (createSnapshot c5doc "glm" "20250101-120000" ([] : SnapshotDir))
      = createSnapshot c5doc "glm" "20250101-120000" ([] : SnapshotDir)
    ∧ (tagSnapshots ([] : SnapshotDir) "glm" = [] →
        (createSnapshot c5doc "glm" "20250101-120000" ([] : SnapshotDir)).length
          = ([] : SnapshotDir).length + 1) :=
  createSnapshot_dedup c5doc "glm" "20250101-120000" "20250101-120001" ([] : SnapshotDir)
    (by simp [c5doc, NodupKeys, keysOf])
    (by simp [c5doc, NodupKeys, keysOf])
    (by intro e he; simp [tagSnapshots] at he)

/-- C3 (code bug): with two glm-tagged snapshots on disk (listed in
`os.ReadDir` name-ascending order) and `keepPerTag = 1`, cleanup deletes
the snapshot whose encoded timestamp is the MOST RECENT of the group and
keeps the oldest: the loop drops `files[keepCount:]` without the sort its
own comment promises, and directory order puts the oldest first. -/
theorem cleanupOldSnapshots_deletes_newest :
    cleanupDeleted ["snapshot-glm-20240101-000000.json",
                    "snapshot-glm-20240105-000000.json"] 1
      = ["snapshot-glm-20240105-000000.json"]
    ∧ strLt (extractTimestampFromFilename "snapshot-glm-20240101-000000.json")
        (extractTimestampFromFilename "snapshot-glm-20240105-000000.json") = true :=
  ⟨rfl, rfl⟩

end Cli

namespace CfgTypes

/-- C8 counterexample: for a provider with no extra env vars (timeout
unset), `Merge` writes the hard-coded `"3000000"` (3,000,000 ms), not
the claimed 300-second default `"300000"`; the generator's `Provider`
type has no `auth.timeoutSeconds` at all to derive the value from. -/
theorem merge_timeout_counterexample :
    lookupKV (merge c8prov "sk-key").env "API_TIMEOUT_MS" = some "3000000"
    ∧ specTimeoutMs 0 = "300000"
    ∧ some "3000000" ≠ some (specTimeoutMs 0) :=
  ⟨rfl, rfl, by decide⟩

theorem mergeBase_timeout (p : Provider) (apiKey : String)
    (h : NodupKeys p.envVars) :
    lookupKV (mergeBase p apiKey) "API_TIMEOUT_MS"
      = lookupKV p.envVars "API_TIMEOUT_MS" := by
  unfold mergeBase
  rw [lookupKV_foldl_insertKV, lastKV_eq_lookupKV _ _ h]
  cases hv : lookupKV p.envVars "API_TIMEOUT_MS" with
  | some v => rfl
  | none =>
      show lookupKV _ "API_TIMEOUT_MS" = none
      cases hha : lookupKV p.models "haiku" <;>
        cases hso : lookupKV p.models "sonnet" <;>
          cases hop : lookupKV p.models "opus" <;>
            simp [hha, hso, hop, lookupKV_insertKV, lookupKV]

/-- C8 (amended): `Merge` sets `API_TIMEOUT_MS` only when the key is not
already provided by the provider's env vars, and the value it writes in
that case is always the constant `"3000000"`; a provided value is kept. -/
theorem merge_timeout_default (p : Provider) (apiKey : String)
    (h : NodupKeys p.envVars) :
    lookupKV (merge p apiKey).env "API_TIMEOUT_MS"
      = some ((lookupKV p.envVars "API_TIMEOUT_MS").getD "3000000") := by
  have hb := mergeBase_timeout p apiKey h
  cases hv : lookupKV p.envVars "API_TIMEOUT_MS" with
  | none =>
      rw [hv] at hb
      simp [merge, hb, lookupKV_insertKV]
  | some v =>
      rw [hv] at hb
      simp [merge, hb]

/-- Witness for `merge_timeout_default` at the glm provider with no extra
env vars. -/
theorem merge_timeout_default_witness :
    lookupKV (merge c8prov "sk-key").env "API_TIMEOUT_MS"
      = some ((lookupKV c8prov.envVars "API_TIMEOUT_MS").getD "3000000") :=
  merge_timeout_default c8prov "sk-key" (by simp [c8prov, NodupKeys, keysOf])

/-- C10: when the destination settings document does not exist,
`CreateBackup` fails with an error before any copy, leaving the backup
directory (and the whole manager state) unchanged. -/
theorem createBackup_missing_settings (backupDirName : String) (maxBackups : Nat)
    (ts : String) (st : ManagerState) (h : st.settingsFile = none) :
    createBackup backupDirName maxBackups ts st
      = (st, .error "settings file does not exist, cannot create backup") := by
  simp [createBackup, h]

/-- Witness for `createBackup_missing_settings`: a state with no settings
file and one pre-existing backup. -/
theorem createBackup_missing_settings_witness :
    createBackup "/home/user/.claude/backups" 10 "20250101-120000"
        ⟨none, [("backup-20240101-000000.json", ⟨[]⟩)]⟩
      = (⟨none, [("backup-20240101-000000.json", ⟨[]⟩)]⟩,
         .error "settings file does not exist, cannot create backup") :=
  createBackup_missing_settings "/home/user/.claude/backups" 10 "20250101-120000"
    ⟨none, [("backup-20240101-000000.json", ⟨[]⟩)]⟩ rfl

/-- C7: `pruneBackups` deletes exactly the backups whose embedded
timestamp parses and lies strictly before the cutoff (`now - maxAge`);
a backup whose timestamp fails to parse survives, and so does every
backup at or after the cutoff. -/
theorem pruneBackups_exact (backups : List BackupInfo) (cutoff : Nat)
    (b : BackupInfo) :
    (b ∈ (pruneBackups backups cutoff).1 ↔
      b ∈ backups ∧ ∃ t, parseTimestamp b.timestamp = some t ∧ t < cutoff)
    ∧ (b ∈ (pruneBackups backups cutoff).2 ↔
      b ∈ backups ∧ ∀ t, parseTimestamp b.timestamp = some t → ¬ t < cutoff) := by
  constructor
  · rw [show (pruneBackups backups cutoff).1
        = backups.filter (pruneDeletes cutoff) from rfl, List.mem_filter]
    apply and_congr_right
    intro _
    unfold pruneDeletes
    cases hp : parseTimestamp b.timestamp <;> simp [hp]
  · rw [show (pruneBackups backups cutoff).2
        = backups.filter (fun x => !pruneDeletes cutoff x) from rfl, List.mem_filter]
    apply and_congr_right
    intro _
    unfold pruneDeletes
    cases hp : parseTimestamp b.timestamp <;> simp [hp]

/-- Spec Scenario D on the prune model: of three backups aged 10, 5 and
0 days against a 7-day cutoff, exactly the 10-day-old one is deleted; a
fourth backup with an unparseable timestamp survives. -/
theorem pruneBackups_scenario :
    pruneBackups
      [ { id := "backup-20250101-120000", timestamp := "20250101-120000",
          provider := "unknown", path := "b1" },
        { id := "backup-20250106-120000", timestamp := "20250106-120000",
          provider := "unknown", path := "b2" },
        { id := "backup-20250111-120000", timestamp := "20250111-120000",
          provider := "unknown", path := "b3" },
        { id := "backup-20250101-120000-notes", timestamp := "20250101-120000-notes",
          provider := "unknown", path := "b4" } ]
      (encodeTs 2025 1 4 12 0 0)
    = ([ { id := "backup-20250101-120000", timestamp := "20250101-120000",
           provider := "unknown", path := "b1" } ],
       [ { id := "backup-20250106-120000", timestamp := "20250106-120000",
           provider := "unknown", path := "b2" },
         { id := "backup-20250111-120000", timestamp := "20250111-120000",
           provider := "unknown", path := "b3" },
         { id := "backup-20250101-120000-notes", timestamp := "20250101-120000-notes",
           provider := "unknown", path := "b4" } ]) := by
  rfl

end CfgTypes

namespace WritePath

theorem append_tmp_ne (s : String) : s ++ ".tmp" ≠ s := by
  intro h
  have hlen := congrArg (fun x => x.data.length) h
  simp [String.data_append] at hlen

/-- C9 counterexample: the settings-document writer of the switch path
(`part_000` `SaveSettings`) writes the destination file directly; it has
no temp file and no rename at all, so the claimed
temp-write-then-rename discipline fails on this write path. -/
theorem saveSettings_not_atomic :
    WritesDestDirectly "/home/user/.claude/settings.json"
      (saveSettingsOps "/home/user/.claude/settings.json" "doc")
    ∧ ¬ AtomicWrite "/home/user/.claude/settings.json"
      (saveSettingsOps "/home/user/.claude/settings.json" "doc") := by
  constructor
  · exact ⟨"doc", by simp [saveSettingsOps]⟩
  · rintro ⟨hno, -⟩
    exact hno ⟨"doc", by simp [saveSettingsOps]⟩

/-- C9 (amended): the CONFIG save path is atomic — it never writes the
destination directly, renames the temp file over it, any abort before
the rename leaves the destination unchanged, the completed run installs
the new content and leaves no temp file — while the snapshot-path
SETTINGS writer simply writes the destination in place. -/
theorem write_paths_amended (configPath content settingsPath content₂ : String)
    (fs fs₂ : FS) :
    AtomicWrite configPath (saveConfigOps configPath content)
    ∧ (∀ n, n < 3 →
        applyOps ((saveConfigOps configPath content).take n) fs configPath
          = fs configPath)
    ∧ applyOps (saveConfigOps configPath content) fs configPath = some content
    ∧ applyOps (saveConfigOps configPath content) fs (configPath ++ ".tmp") = none
    ∧ applyOps (saveSettingsOps settingsPath content₂) fs₂ settingsPath
        = some content₂ := by
  have hne : configPath ≠ configPath ++ ".tmp" :=
    fun h => append_tmp_ne configPath h.symm
  have hne' : configPath ++ ".tmp" ≠ configPath := append_tmp_ne configPath
  refine ⟨⟨?_, ⟨configPath ++ ".tmp", by simp [saveConfigOps]⟩⟩, ?_, ?_, ?_, ?_⟩
  · rintro ⟨c, hc⟩
    simp [saveConfigOps] at hc
    exact hne hc.1
  · intro n hn
    interval_cases n
    · rfl
    · rfl
    · simp [saveConfigOps, applyOps, applyOp, hne]
  · simp [saveConfigOps, applyOps, applyOp]
  · simp [saveConfigOps, applyOps, applyOp, hne']
  · simp [saveSettingsOps, applyOps, applyOp]

/-- Witness for `write_paths_amended`: the abort-before-rename case with
two operations applied, on an empty file system. -/
theorem write_paths_amended_witness :
    applyOps ((saveConfigOps "/home/user/.cflip/config.toml" "cfg").take 2)
        (fun _ => none) "/home/user/.cflip/config.toml"
      = (fun _ => none : FS) "/home/user/.cflip/config.toml"
    ∧ applyOps (saveConfigOps "/home/user/.cflip/config.toml" "cfg")
        (fun _ => none) "/home/user/.cflip/config.toml" = some "cfg" :=
  ⟨(write_paths_amended "/home/user/.cflip/config.toml" "cfg"
      "/home/user/.claude/settings.json" "doc" (fun _ => none) (fun _ => none)).2.1
        2 (by decide),
   (write_paths_amended "/home/user/.cflip/config.toml" "cfg"
      "/home/user/.claude/settings.json" "doc" (fun _ => none) (fun _ => none)).2.2.1⟩

end WritePath

end Cflip
